import Mathlib

/-!
Verification of `src/trader_analysis.py` (bitcoin-trader-insights).

The script is a straight-line pandas pipeline: load two CSV tables, clean
them, inner-join on a per-day date key, derive a few columns
(`pnl_clean`, `lev_clean`, `sentiment_value`, `sentiment_bucket`, `is_win`)
and render three charts.  We embed the pipeline shallowly:

* a CSV cell is a rational number, a missing marker (pandas `NaN`), or a
  raw string (`Cell`);
* Python `float(...)` is modelled by `floatOf`, returning either a float
  value (`FloatV`, finite rational or NaN) or an error — note that
  `float(nan)` *succeeds* and every comparison with NaN is false;
* `pd.to_numeric(..., errors=coerce)` is modelled as an `Option ℚ`
  (`none` = NaN/missing);
* the analyzer `analyze_and_visualize` is modelled as a pure function from
  the merged-table columns and the two cleaned tables to a record of the
  console log, the chart files written, and the derived table;
* the loader `load_and_clean_data` is modelled as a pure function of an
  environment describing which input files exist and which columns the
  two tables have (its purely diagnostic date-range prints are omitted).

Machine reals are modelled by ℚ: every numeric literal involved (25, 50,
75, 0, the parsed decimals) is exactly representable, and the only float
peculiarity the code exercises — NaN comparing false — is carried
explicitly by `FloatV`.
-/

namespace TraderInsights

/-- One CSV cell as pandas holds it: a numeric value, the missing marker
(`NaN` in a numeric or object column), or a raw string. -/
inductive Cell where
  | num (q : ℚ)
  | nan
  | str (s : String)
deriving DecidableEq, Repr

/-- A Python float as far as the script can observe it: a finite value or
NaN (the script never produces infinities from its inputs' range). -/
inductive FloatV where
  | finite (q : ℚ)
  | nan
deriving DecidableEq, Repr

/-- Digit list to the natural number it denotes (most significant first). -/
def digitsVal (cs : List Char) : ℕ :=
  cs.foldl (fun a c => a * 10 + (c.toNat - 48)) 0

/-- All characters are decimal digits. -/
def allDigits (cs : List Char) : Bool :=
  cs.all Char.isDigit

/-- Strip leading and trailing whitespace (Python `strip`). -/
def trimWs (cs : List Char) : List Char :=
  ((cs.dropWhile Char.isWhitespace).reverse.dropWhile Char.isWhitespace).reverse

/-- Split a character list at every `.` (pieces between dots, in order;
`k` dots yield `k+1` pieces). -/
def splitDots : List Char → List (List Char)
  | [] => [[]]
  | c :: cs =>
    let r := splitDots cs
    if c = '.' then [] :: r
    else
      match r with
      | [] => [[c]]
      | p :: ps => (c :: p) :: ps

/-- Parse a plain decimal literal (optional sign, optional single decimal
point, at least one digit), as accepted both by Python `float` and by
`pd.to_numeric`; whitespace is stripped first.  `none` means the parse
fails. -/
def parseDecimal (s : String) : Option ℚ :=
  let signBody : ℚ × List Char :=
    match trimWs s.toList with
    | '-' :: rest => (-1, rest)
    | '+' :: rest => (1, rest)
    | cs => (1, cs)
  match splitDots signBody.2 with
  | [ics] =>
    if allDigits ics && !ics.isEmpty then
      some (signBody.1 * (digitsVal ics : ℚ))
    else none
  | [ics, fcs] =>
    if allDigits ics && allDigits fcs && !(ics.isEmpty && fcs.isEmpty) then
      some (signBody.1 * ((digitsVal ics : ℚ) + (digitsVal fcs : ℚ) / (10 : ℚ) ^ fcs.length))
    else none
  | _ => none

/-- Python `float(val)` on a cell: a number converts to itself, the
missing marker converts to NaN *successfully*, and a string is parsed
(`"nan"`, case-insensitively, parses to NaN; anything unparseable raises,
modelled as `Except.error`). -/
def floatOf : Cell → Except Unit FloatV
  | .num q => .ok (.finite q)
  | .nan => .ok .nan
  | .str s =>
    match parseDecimal s with
    | some q => .ok (.finite q)
    | none =>
      if trimWs (s.toList.map Char.toLower) = ['n', 'a', 'n'] then .ok .nan
      else .error ()

/-- Float `<` against a constant: false whenever the value is NaN. -/
def fltLtBool : FloatV → ℚ → Bool
  | .finite q, c => decide (q < c)
  | .nan, _ => false

/-- `get_bucket` from `analyze_and_visualize` (lines 151–158): try
`float(val)`; on success bucket by the fixed thresholds, on exception
return Unknown. -/
def get_bucket (c : Cell) : String :=
  match floatOf c with
  | .error _ => "Unknown"
  | .ok v =>
    if fltLtBool v 25 then "Extreme Fear"
    else if fltLtBool v 50 then "Fear"
    else if fltLtBool v 75 then "Greed"
    else "Extreme Greed"

/-- The PnL string cleaning of line 134: `str.replace` every `,` and then
every `$` by the empty string (for a one-character pattern this is
exactly dropping every occurrence of the character), then coerce with
`pd.to_numeric(..., errors=coerce)` (`none` = NaN). -/
def cleanPnlStr (s : String) : Option ℚ :=
  parseDecimal (String.mk ((s.toList.filter fun c => c != ',').filter fun c => c != '$'))

/-- `pnl_clean` for one cell.  A numeric column passes through (line 136,
NaN staying missing); an object column is `astype(str)`-cleaned
cell-by-cell (line 134), which on the numeric/missing cells of such a
column coerces to the same result. -/
def cleanCellPnl : Cell → Option ℚ
  | .num q => some q
  | .nan => none
  | .str s => cleanPnlStr s

/-- `lev_clean` for one cell: `pd.to_numeric(..., errors=coerce)`
(line 143). -/
def levClean : Cell → Option ℚ
  | .num q => some q
  | .nan => none
  | .str s => parseDecimal s

/-- A cleaned trader row as `load_and_clean_data` returns it: the
normalized `date_key` (a calendar day, encoded ℤ) plus the raw PnL and
leverage cells. -/
structure TRow where
  date : ℤ
  pnl : Cell
  lev : Cell
deriving DecidableEq, Repr

/-- A cleaned sentiment row: normalized `date_key` plus the raw sentiment
value cell. -/
structure SRow where
  date : ℤ
  value : Cell
deriving DecidableEq, Repr

/-- A row of `merged_df`: `pd.merge(trader_df, sentiment_df, on=date_key,
how=inner)` pairs every trader row with every sentiment row sharing its
date key. -/
structure MRow where
  date : ℤ
  pnl : Cell
  lev : Cell
  value : Cell
deriving DecidableEq, Repr

/-- The inner join of line 121, in left-table order. -/
def mergedRows (t : List TRow) (s : List SRow) : List MRow :=
  t.flatMap fun tr =>
    (s.filter fun sr => sr.date == tr.date).map fun sr =>
      ⟨tr.date, tr.pnl, tr.lev, sr.value⟩

/-- The list `pat` occurs at the start of the list. -/
def startsWithL : List Char → List Char → Bool
  | [], _ => true
  | _ :: _, [] => false
  | p :: ps, c :: cs => p == c && startsWithL ps cs

/-- The list `pat` occurs somewhere in the list. -/
def hasSub (pat : List Char) : List Char → Bool
  | [] => pat.isEmpty
  | c :: rest => startsWithL pat (c :: rest) || hasSub pat rest

/-- Python substring test `pat in c`. -/
def containsSub (c pat : String) : Bool :=
  hasSub pat.toList c.toList

/-- Line 131: some merged column name contains `pnl` (the `closed pnl` /
`closed_pnl` alternatives are subsumed by the `pnl` test). -/
def detectPnl (cols : List String) : Bool :=
  cols.any fun c => containsSub c "pnl"

/-- Line 141: some merged column name contains `leverage`. -/
def detectLev (cols : List String) : Bool :=
  cols.any fun c => containsSub c "leverage"

/-- Line 148: some merged column name contains `value` but not `size`. -/
def detectVal (cols : List String) : Bool :=
  cols.any fun c => containsSub c "value" && !containsSub c "size"

/-- `is_win` of line 218: `pnl_clean > 0`, false on NaN. -/
def isWin (r : MRow) : Bool :=
  match cleanCellPnl r.pnl with
  | some q => decide (0 < q)
  | none => false

/-- The `sentiment_bucket` of a merged row (line 159). -/
def bucketOf (r : MRow) : String :=
  get_bucket r.value

/-- The rows of one sentiment-bucket group of `merged_df.groupby`. -/
def groupRows (rows : List MRow) (b : String) : List MRow :=
  rows.filter fun r => bucketOf r == b

/-- Per-bucket mean of `pnl_clean` (line 170); pandas `mean` skips NaN,
and a group with no non-missing value yields NaN (`none`). -/
def meanPnlB (rows : List MRow) (b : String) : Option ℚ :=
  let xs := (groupRows rows b).filterMap fun r => cleanCellPnl r.pnl
  if xs.isEmpty then none else some (xs.sum / (xs.length : ℚ))

/-- Per-bucket mean of the boolean `is_win` (line 219): wins over the
whole group size — boolean columns have no NaN, so nothing is skipped. -/
def winRateB (rows : List MRow) (b : String) : Option ℚ :=
  let g := groupRows rows b
  if g.isEmpty then none else
    some (((g.countP fun r => isWin r : ℕ) : ℚ) / (g.length : ℚ))

/-- What `analyze_and_visualize` leaves behind when it gets past the
empty-merge check: the merged rows and which derived columns exist
(`lev_clean` always exists — line 145 creates an all-`None` column when
no leverage column is found). -/
structure DerivedTable where
  rows : List MRow
  hasPnlClean : Bool
  hasBucket : Bool
deriving DecidableEq, Repr

/-- The observable outcome of `analyze_and_visualize`: console log, chart
files saved, and the derived table (`none` when the function returned at
the empty-merge check before deriving anything). -/
structure AnalyzeResult where
  log : List String
  charts : List String
  derived : Option DerivedTable
deriving DecidableEq, Repr

/-- `analyze_and_visualize` (lines 117–241) over the merged-table column
names and the two cleaned tables.  Chart rendering is abstracted to the
file name saved; the three `if` guards, the log lines, and the absence of
an `else` on plots 1 and 3 follow the source exactly.  The numeral the
`Merged Rows:` print interpolates is omitted from the log entry — the
merged rows themselves are returned in `derived`. -/
def analyze (cols : List String) (t : List TRow) (s : List SRow) : AnalyzeResult :=
  let merged := mergedRows t s
  let log0 := ["--- 2. MERGING & MAPPING ---", "Merged Rows:"]
  if merged.isEmpty then
    { log := log0 ++ ["ERROR: Merged DataFrame is still empty."],
      charts := [], derived := none }
  else
    let hasPnl := detectPnl cols
    let hasVal := detectVal cols
    let logMap := if hasPnl then [] else ["WARNING: PnL column not found."]
    let levAny := detectLev cols && merged.any fun r => (levClean r.lev).isSome
    let plots13 := hasPnl && hasVal
    let c1 := if plots13 then ["images/pnl_by_sentiment.png"] else []
    let l1 := if plots13 then ["-> Saved professional images/pnl_by_sentiment.png"] else []
    let c2 := if levAny then ["images/leverage_vs_sentiment.png"] else []
    let l2 := if levAny then ["-> Saved professional images/leverage_vs_sentiment.png"]
              else ["-> Leverage column missing. Skipping leverage plot."]
    let c3 := if plots13 then ["images/win_rate_by_sentiment.png"] else []
    let l3 := if plots13 then ["-> Saved professional images/win_rate_by_sentiment.png"] else []
    { log := log0 ++ logMap ++ ["--- 3. GENERATING PROFESSIONAL PLOTS ---"]
             ++ l1 ++ l2 ++ l3 ++ ["SUCCESS: Analysis Finished."],
      charts := c1 ++ c2 ++ c3,
      derived := some { rows := merged, hasPnlClean := hasPnl, hasBucket := hasVal } }

/-- A raw trader CSV row before date fixing.  `tsNum` is the datetime
obtained through the numeric-`timestamp` branch (line 75), `tsIst` the
one through the string `timestamp ist` branch (line 78, coercion makes
unparseable values `none`); both are already normalized to the day. -/
structure TrRaw where
  tsNum : Option ℤ
  tsIst : Option ℤ
  pnl : Cell
  lev : Cell
deriving DecidableEq, Repr

/-- A raw sentiment CSV row: parsed day through the `date` column
(line 86) or through the `timestamp` column (line 89). -/
structure SRaw where
  viaDate : Option ℤ
  viaTs : Option ℤ
  value : Cell
deriving DecidableEq, Repr

/-- The environment `load_and_clean_data` runs in: file existence at the
configured path and at the current-directory fallback for both inputs,
the two tables' raw column names, whether the trader `timestamp` column
has numeric dtype, and the raw rows. -/
structure Env where
  traderPathExists : Bool
  traderFallbackExists : Bool
  sentPathExists : Bool
  sentFallbackExists : Bool
  traderCols : List String
  sentCols : List String
  tsNumeric : Bool
  trRows : List TrRaw
  sRows : List SRaw
deriving DecidableEq, Repr

/-- One column name under the normalization of lines 67–68:
`c.lower().strip()`. -/
def normName (c : String) : String :=
  String.mk (trimWs (c.toList.map Char.toLower))

/-- Column normalization of lines 67–68 over a whole header. -/
def normCols (cols : List String) : List String :=
  cols.map normName

/-- `load_and_clean_data` (lines 45–112): locate both files, normalize
columns, pick a date column for each table, drop rows whose date key is
missing (lines 99–100), and return the two cleaned tables — or `none`
with a printed error.  The purely diagnostic date-range prints
(lines 103–110) are omitted. -/
def load_and_clean_data (env : Env) : Option (List TRow × List SRow) × List String :=
  let log0 := ["--- 1. LOADING & DIAGNOSING DATA ---"]
  if !(env.traderPathExists || env.traderFallbackExists) then
    (none, log0 ++ ["CRITICAL ERROR: Could not find trader data."])
  else if !(env.sentPathExists || env.sentFallbackExists) then
    (none, log0 ++ ["CRITICAL ERROR: Could not find sentiment data."])
  else
    let tcols := normCols env.traderCols
    let scols := normCols env.sentCols
    if tcols.contains "timestamp" && env.tsNumeric then
      let log1 := log0 ++ ["-> Using numeric 'timestamp' column for Trader Data..."]
      loadSentiment env scols log1 fun r => r.tsNum
    else if tcols.contains "timestamp ist" then
      let log1 := log0 ++ ["-> Using string 'timestamp ist' column for Trader Data..."]
      loadSentiment env scols log1 fun r => r.tsIst
    else
      (none, log0 ++ ["ERROR: Could not find a recognizable time column in Trader Data."])
where
  /-- The sentiment half of the date fixing (lines 84–92) followed by the
  NaT drop and the return. -/
  loadSentiment (env : Env) (scols : List String) (log1 : List String)
      (tdate : TrRaw → Option ℤ) : Option (List TRow × List SRow) × List String :=
    if scols.contains "date" then
      finish env log1 tdate fun r => r.viaDate
    else if scols.contains "timestamp" then
      finish env log1 tdate fun r => r.viaTs
    else
      (none, log1 ++ ["ERROR: Could not find a recognizable date column in Sentiment Data."])
  /-- `dropna(subset=[date_key])` on both tables and the successful
  return of line 112. -/
  finish (env : Env) (log1 : List String) (tdate : TrRaw → Option ℤ)
      (sdate : SRaw → Option ℤ) : Option (List TRow × List SRow) × List String :=
    let t := env.trRows.filterMap fun r => (tdate r).map fun d => TRow.mk d r.pnl r.lev
    let s := env.sRows.filterMap fun r => (sdate r).map fun d => SRow.mk d r.value
    (some (t, s), log1)

/-- The normalized column names of `merged_df` that the substring
detectors run over: both tables' columns (the derived helper columns
`datetime`, `date_key_raw`, `date_key`, `pnl_clean`, `lev_clean`,
`sentiment_value` match none of the detector patterns, and pandas merge
suffixes keep the original name as a substring). -/
def mergedCols (env : Env) : List String :=
  normCols env.traderCols ++ normCols env.sentCols

/-- The outcome of one run of the `__main__` block. -/
structure MainResult where
  log : List String
  analysisRan : Bool
  result : Option AnalyzeResult
deriving DecidableEq, Repr

/-- The `__main__` block (lines 243–246): run the loader; run the
analyzer only when the loader returned both tables. -/
def mainRun (env : Env) : MainResult :=
  match load_and_clean_data env with
  | (some (t, s), log) =>
    let res := analyze (mergedCols env) t s
    { log := log ++ res.log, analysisRan := true, result := some res }
  | (none, log) =>
    { log := log, analysisRan := false, result := none }

/-- Neither the configured path nor the current-directory fallback exists
for the trader input (lines 49–55). -/
def traderFileMissing (env : Env) : Prop :=
  env.traderPathExists = false ∧ env.traderFallbackExists = false

/-- Neither the configured path nor the current-directory fallback exists
for the sentiment input (lines 58–64). -/
def sentFileMissing (env : Env) : Prop :=
  env.sentPathExists = false ∧ env.sentFallbackExists = false

/-- No recognizable time column in the trader table: no numeric
`timestamp` column and no `timestamp ist` column (lines 73–81). -/
def traderNoTimeCol (env : Env) : Prop :=
  ¬("timestamp" ∈ normCols env.traderCols ∧ env.tsNumeric = true) ∧
  "timestamp ist" ∉ normCols env.traderCols

/-- No recognizable date column in the sentiment table: neither `date`
nor `timestamp` (lines 84–92). -/
def sentNoDateCol (env : Env) : Prop :=
  "date" ∉ normCols env.sentCols ∧ "timestamp" ∉ normCols env.sentCols

/-- A concrete environment whose sentiment table lacks a recognizable
date column. -/
def envNoSentDate : Env :=
  { traderPathExists := true, traderFallbackExists := false,
    sentPathExists := true, sentFallbackExists := false,
    traderCols := ["Timestamp IST"], sentCols := ["Day"], tsNumeric := false,
    trRows := [], sRows := [] }

/-! ## Theorems -/

/-- Claim C1: every numeric sentiment score maps to exactly one of the
four named buckets by the fixed thresholds — below 25 Extreme Fear,
`[25,50)` Fear, `[50,75)` Greed, 75 and above Extreme Greed — and the
boundary scores 25, 50, 75 resolve to the upper bucket. -/
theorem c1_bucket_thresholds :
    (∀ q : ℚ, get_bucket (.num q) =
      if q < 25 then "Extreme Fear"
      else if q < 50 then "Fear"
      else if q < 75 then "Greed"
      else "Extreme Greed") ∧
    (∀ q : ℚ, get_bucket (.num q) = "Extreme Fear" ∨ get_bucket (.num q) = "Fear" ∨
      get_bucket (.num q) = "Greed" ∨ get_bucket (.num q) = "Extreme Greed") ∧
    get_bucket (.num 25) = "Fear" ∧
    get_bucket (.num 50) = "Greed" ∧
    get_bucket (.num 75) = "Extreme Greed" := by
  have h1 : ∀ q : ℚ, get_bucket (.num q) =
      if q < 25 then "Extreme Fear"
      else if q < 50 then "Fear"
      else if q < 75 then "Greed"
      else "Extreme Greed" := by
    intro q
    simp [get_bucket, floatOf, fltLtBool]
  refine ⟨h1, fun q => ?_, by decide, by decide, by decide⟩
  rw [h1 q]
  split_ifs <;> simp

/-- Claim C2, counterexample: a missing sentiment score (pandas NaN)
does not bucket to Unknown — `float(nan)` succeeds and every threshold
comparison with NaN is false, so the row falls through to the `else`
branch, Extreme Greed. -/
theorem c2_counterexample_nan_bucket :
    get_bucket Cell.nan ≠ "Unknown" ∧ get_bucket Cell.nan = "Extreme Greed" := by
  decide

/-- Claim C2, amended: a sentiment score that is a non-numeric string
(one `float()` rejects) buckets to Unknown, but a missing score (NaN)
buckets to Extreme Greed. -/
theorem c2_amended_nonnumeric_unknown :
    (∀ s : String, floatOf (.str s) = .error () → get_bucket (.str s) = "Unknown") ∧
    get_bucket Cell.nan = "Extreme Greed" := by
  refine ⟨fun s h => ?_, by decide⟩
  simp [get_bucket, h]

/-- Claim C2 witness: the amended statement applied at the concrete
non-numeric string. -/
theorem c2_amended_witness : get_bucket (Cell.str "abc") = "Unknown" :=
  c2_amended_nonnumeric_unknown.1 "abc" (by rfl)

/-- Claim C3: cleaning a text profit/loss entry drops the thousands
separators and dollar signs before numeric coercion, so the string
dollar-1,234.50 cleans to the numeric value 1234.50 = 2469/2; a string
that still fails to parse cleans to the missing marker (`none`), and the
cleaning is total — it never raises. -/
theorem c3_pnl_cleaning :
    cleanPnlStr "$1,234.50" = some (2469 / 2 : ℚ) ∧
    cleanPnlStr "abc" = none ∧
    ∀ s : String, cleanPnlStr s = none ∨ ∃ q : ℚ, cleanPnlStr s = some q := by
  refine ⟨?_, ?_, fun s => ?_⟩
  · simp +decide [cleanPnlStr, parseDecimal, trimWs, splitDots, allDigits, digitsVal]
    norm_num
  · simp +decide [cleanPnlStr, parseDecimal, trimWs, splitDots, allDigits, digitsVal]
  · cases h : cleanPnlStr s with
    | none => exact Or.inl rfl
    | some q => exact Or.inr ⟨q, rfl⟩

/-- Claim C6: the win indicator is true exactly when the cleaned
profit/loss value exists and is strictly positive; in particular a
profit/loss of exactly zero is not a win. -/
theorem c6_win_strictly_positive :
    (∀ r : MRow, isWin r = true ↔ ∃ q : ℚ, cleanCellPnl r.pnl = some q ∧ 0 < q) ∧
    (∀ (d : ℤ) (l v : Cell), isWin ⟨d, .num 0, l, v⟩ = false) := by
  constructor
  · intro r
    cases h : cleanCellPnl r.pnl with
    | none => simp [isWin, h]
    | some q => simp [isWin, h]
  · intro d l v
    simp +decide [isWin, cleanCellPnl]

/-- In a sentiment table with pairwise-distinct date keys (one row per
calendar day), filtering for one key yields one row when the key is
present and none otherwise. -/
theorem filter_date_length (s : List SRow) (d : ℤ)
    (h : (s.map SRow.date).Nodup) :
    (s.filter fun sr => sr.date == d).length =
      if d ∈ s.map SRow.date then 1 else 0 := by
  induction s with
  | nil => simp
  | cons a t ih =>
    simp only [List.map_cons, List.nodup_cons] at h
    obtain ⟨ha, ht⟩ := h
    by_cases hd : a.date = d
    · have h0 : (t.filter fun sr => sr.date == d).length = 0 := by
        rw [ih ht, if_neg]
        rw [← hd]
        exact ha
      simp [List.filter_cons, hd, h0]
    · have hb : (a.date == d) = false := by simpa using hd
      have hne : d ≠ a.date := fun hh => hd hh.symm
      simp [List.filter_cons, hb, ih ht, hne]

/-- One trader row contributes to the join exactly the sentiment rows
sharing its date key. -/
theorem mergedRows_cons (a : TRow) (t : List TRow) (s : List SRow) :
    mergedRows (a :: t) s =
      ((s.filter fun sr => sr.date == a.date).map fun sr =>
        ⟨a.date, a.pnl, a.lev, sr.value⟩) ++ mergedRows t s := by
  simp [mergedRows]

/-- Claim C7: with one sentiment row per calendar day, the inner join has
exactly one row per trader row whose date key lies in the intersection of
the two tables' date-key sets, and every merged row's date key exists in
both tables. -/
theorem c7_merge_row_count (t : List TRow) (s : List SRow)
    (h : (s.map SRow.date).Nodup) :
    (mergedRows t s).length =
      (t.filter fun tr =>
        decide (tr.date ∈ t.map TRow.date ∧ tr.date ∈ s.map SRow.date)).length ∧
    ∀ m ∈ mergedRows t s, m.date ∈ t.map TRow.date ∧ m.date ∈ s.map SRow.date := by
  constructor
  · have key : (mergedRows t s).length =
        (t.filter fun tr => decide (tr.date ∈ s.map SRow.date)).length := by
      induction t with
      | nil => simp [mergedRows]
      | cons a t ih =>
        rw [mergedRows_cons, List.length_append, List.length_map,
            filter_date_length s a.date h, ih, List.filter_cons]
        by_cases hm : a.date ∈ s.map SRow.date
        · rw [if_pos hm, if_pos (by simpa using hm)]
          simp [Nat.add_comm]
        · rw [if_neg hm, if_neg (by simpa using hm)]
          simp
    rw [key]
    have hf : (t.filter fun tr => decide (tr.date ∈ s.map SRow.date)) =
        t.filter fun tr =>
          decide (tr.date ∈ t.map TRow.date ∧ tr.date ∈ s.map SRow.date) := by
      apply List.filter_congr
      intro x hx
      have hxd : x.date ∈ t.map TRow.date := List.mem_map_of_mem TRow.date hx
      simp [hxd]
    rw [hf]
  · intro m hm
    simp only [mergedRows, List.mem_flatMap, List.mem_map, List.mem_filter] at hm
    obtain ⟨tr, htr, sr, ⟨hsr, heq⟩, hm⟩ := hm
    have hdate : m.date = tr.date := by rw [← hm]
    have hsd : sr.date = tr.date := by simpa using heq
    constructor
    · rw [hdate]
      exact List.mem_map_of_mem TRow.date htr
    · rw [hdate, ← hsd]
      exact List.mem_map_of_mem SRow.date hsr

/-- Claim C7 witness: the count statement applied to a concrete pair of
tables — two of the three trader rows share their date key with the
single sentiment row. -/
theorem c7_merge_row_count_witness :
    (mergedRows ([⟨0, .num 5, .nan⟩, ⟨3, .num 1, .nan⟩, ⟨0, .nan, .nan⟩] : List TRow)
        ([⟨0, .num 30⟩, ⟨1, .num 80⟩] : List SRow)).length =
      (([⟨0, .num 5, .nan⟩, ⟨3, .num 1, .nan⟩, ⟨0, .nan, .nan⟩] : List TRow).filter fun tr =>
        decide (tr.date ∈ ([⟨0, .num 5, .nan⟩, ⟨3, .num 1, .nan⟩,
            ⟨0, .nan, .nan⟩] : List TRow).map TRow.date ∧
          tr.date ∈ ([⟨0, .num 30⟩, ⟨1, .num 80⟩] : List SRow).map SRow.date)).length :=
  (c7_merge_row_count _ _ (by decide)).1

/-- Claim C4: when the two tables' date-key sets do not intersect, the
analyzer reports the merged-result-empty error and returns with no chart
saved and no derived table. -/
theorem c4_empty_merge_aborts (cols : List String) (t : List TRow) (s : List SRow)
    (h : ∀ d : ℤ, d ∈ t.map TRow.date → d ∉ s.map SRow.date) :
    (analyze cols t s).charts = [] ∧
    (analyze cols t s).derived = none ∧
    "ERROR: Merged DataFrame is still empty." ∈ (analyze cols t s).log := by
  have hm : mergedRows t s = [] := by
    simp only [mergedRows, List.flatMap_eq_nil_iff]
    intro tr htr
    have hfil : s.filter (fun sr => sr.date == tr.date) = [] := by
      rw [List.filter_eq_nil_iff]
      intro sr hsr hb
      have hd : sr.date = tr.date := by simpa using hb
      have h1 : tr.date ∈ t.map TRow.date := List.mem_map_of_mem TRow.date htr
      have h2 : tr.date ∈ s.map SRow.date := by
        rw [← hd]
        exact List.mem_map_of_mem SRow.date hsr
      exact h tr.date h1 h2
    rw [hfil]
    rfl
  simp +decide [analyze, hm]

/-- Claim C4 witness: concrete tables whose only date keys are 0 and 1
respectively. -/
theorem c4_empty_merge_aborts_witness :
    (analyze ["value"] [⟨0, .nan, .nan⟩] [⟨1, .num 10⟩]).charts = [] ∧
    (analyze ["value"] [⟨0, .nan, .nan⟩] [⟨1, .num 10⟩]).derived = none ∧
    "ERROR: Merged DataFrame is still empty." ∈
      (analyze ["value"] [⟨0, .nan, .nan⟩] [⟨1, .num 10⟩]).log :=
  c4_empty_merge_aborts _ _ _ (by decide)

/-- Claim C5: when one of the two input files exists at neither path, or
one of the two tables has no recognizable date/time column, the loader
prints an error line and returns the failure value, and the main entry
point skips the analysis stage entirely. -/
theorem c5_loader_failure_aborts (env : Env)
    (h : traderFileMissing env ∨ sentFileMissing env ∨
      traderNoTimeCol env ∨ sentNoDateCol env) :
    (load_and_clean_data env).1 = none ∧
    (load_and_clean_data env).2.any (fun m => containsSub m "ERROR") = true ∧
    (mainRun env).analysisRan = false ∧
    (mainRun env).result = none := by
  have hload : (load_and_clean_data env).1 = none ∧
      (load_and_clean_data env).2.any (fun m => containsSub m "ERROR") = true := by
    by_cases hc1 : (env.traderPathExists || env.traderFallbackExists) = true
    · by_cases hc2 : (env.sentPathExists || env.sentFallbackExists) = true
      · rcases h with ⟨h1, h2⟩ | ⟨h1, h2⟩ | ⟨h1, h2⟩ | ⟨h1, h2⟩
        · rw [h1, h2] at hc1
          simp at hc1
        · rw [h1, h2] at hc2
          simp at hc2
        · simp +decide [load_and_clean_data, hc1, hc2, h1, h2]
        · by_cases ht1 : "timestamp" ∈ normCols env.traderCols ∧ env.tsNumeric = true
          · simp +decide [load_and_clean_data, load_and_clean_data.loadSentiment,
              hc1, hc2, ht1, h1, h2]
          · by_cases ht2 : "timestamp ist" ∈ normCols env.traderCols
            · simp +decide [load_and_clean_data, load_and_clean_data.loadSentiment,
                hc1, hc2, ht1, ht2, h1, h2]
            · simp +decide [load_and_clean_data, hc1, hc2, ht1, ht2]
      · simp +decide [load_and_clean_data, hc1, hc2]
    · simp +decide [load_and_clean_data, hc1]
  refine ⟨hload.1, hload.2, ?_⟩
  have hn := hload.1
  unfold mainRun
  rcases hl : load_and_clean_data env with ⟨o, log⟩
  rw [hl] at hn
  simp only at hn
  subst hn
  simp

/-- Claim C5 witness: a concrete environment whose sentiment table has no
recognizable date column. -/
theorem c5_loader_failure_aborts_witness :
    (load_and_clean_data envNoSentDate).1 = none ∧
    (load_and_clean_data envNoSentDate).2.any (fun m => containsSub m "ERROR") = true ∧
    (mainRun envNoSentDate).analysisRan = false ∧
    (mainRun envNoSentDate).result = none :=
  c5_loader_failure_aborts envNoSentDate
    (Or.inr (Or.inr (Or.inr ⟨by decide, by decide⟩)))

/-- Claim C8, counterexample: a run whose merged table has no sentiment
`value` column (so the derived `sentiment_bucket` column required by the
mean-PnL and win-rate analyses is absent).  Both analyses are skipped —
their charts are not produced while the analyzer still completes — but
no log line reporting a skip is printed: the plot-1 and plot-3 guards
(lines 169, 217) have no `else` branch. -/
theorem c8_counterexample_silent_skip :
    (analyze ["closed pnl", "leverage", "timestamp ist"]
      [⟨0, .num 5, .num 2⟩] [⟨0, .num 30⟩]).derived =
        some { rows := [⟨0, .num 5, .num 2, .num 30⟩],
               hasPnlClean := true, hasBucket := false } ∧
    (analyze ["closed pnl", "leverage", "timestamp ist"]
      [⟨0, .num 5, .num 2⟩] [⟨0, .num 30⟩]).charts.contains
        "images/pnl_by_sentiment.png" = false ∧
    (analyze ["closed pnl", "leverage", "timestamp ist"]
      [⟨0, .num 5, .num 2⟩] [⟨0, .num 30⟩]).charts.contains
        "images/win_rate_by_sentiment.png" = false ∧
    ((analyze ["closed pnl", "leverage", "timestamp ist"]
      [⟨0, .num 5, .num 2⟩] [⟨0, .num 30⟩]).log.any fun m =>
        containsSub m "Skipping") = false := by
  refine ⟨?_, by decide, by decide, by decide⟩
  simp +decide [analyze, mergedRows, detectPnl, detectVal, detectLev, levClean,
    containsSub, hasSub, startsWithL]

/-- Claim C8, amended: only the leverage analysis is skipped with a log
message (when `lev_clean` is absent or entirely missing); the mean-PnL
and win-rate analyses are skipped silently when `pnl_clean` or
`sentiment_bucket` is absent — the only possible skip log line is the
leverage one. -/
theorem c8_amended_skip_logging (cols : List String) (t : List TRow) (s : List SRow)
    (hne : mergedRows t s ≠ []) :
    ((detectLev cols && (mergedRows t s).any fun r => (levClean r.lev).isSome) = false →
      "images/leverage_vs_sentiment.png" ∉ (analyze cols t s).charts ∧
      "-> Leverage column missing. Skipping leverage plot." ∈ (analyze cols t s).log) ∧
    ((detectPnl cols && detectVal cols) = false →
      "images/pnl_by_sentiment.png" ∉ (analyze cols t s).charts ∧
      "images/win_rate_by_sentiment.png" ∉ (analyze cols t s).charts ∧
      ∀ m ∈ (analyze cols t s).log, containsSub m "Skipping" = true →
        m = "-> Leverage column missing. Skipping leverage plot.") := by
  have hie : (mergedRows t s).isEmpty = false := by
    simpa [List.isEmpty_iff] using hne
  by_cases hl : (detectLev cols && (mergedRows t s).any fun r =>
      (levClean r.lev).isSome) = true
  · by_cases hp : (detectPnl cols && detectVal cols) = true
    · simp +decide [analyze, hie, hl, hp]
    · simp +decide [analyze, hie, hl, hp]
      rintro a (⟨-, rfl⟩ | rfl | rfl | rfl) hSk
      all_goals revert hSk
      all_goals decide
  · by_cases hp : (detectPnl cols && detectVal cols) = true
    · simp +decide [analyze, hie, hl, hp]
    · simp +decide [analyze, hie, hl, hp]
      rintro a (⟨-, rfl⟩ | rfl | rfl | rfl) hSk
      all_goals revert hSk
      all_goals decide

/-- Claim C8 witness: the amended statement applied to a run with a
`pnl` column, no leverage column, and no sentiment `value` column. -/
theorem c8_amended_skip_logging_witness :
    ("images/leverage_vs_sentiment.png" ∉
      (analyze ["closed pnl"] [⟨0, .num 5, .nan⟩] [⟨0, .num 30⟩]).charts ∧
      "-> Leverage column missing. Skipping leverage plot." ∈
        (analyze ["closed pnl"] [⟨0, .num 5, .nan⟩] [⟨0, .num 30⟩]).log) ∧
    "images/pnl_by_sentiment.png" ∉
      (analyze ["closed pnl"] [⟨0, .num 5, .nan⟩] [⟨0, .num 30⟩]).charts := by
  have h := c8_amended_skip_logging ["closed pnl"]
    [⟨0, .num 5, .nan⟩] [⟨0, .num 30⟩] (by decide)
  exact ⟨h.1 (by decide), (h.2 (by decide)).1⟩

/-- Claim C9: the analyzer and its aggregate numbers (per-bucket mean PnL
and per-bucket win rate) are a deterministic pure function of the input
tables — two runs on equal inputs produce equal results. -/
theorem c9_deterministic_aggregates (cols cols2 : List String)
    (t t2 : List TRow) (s s2 : List SRow)
    (hc : cols = cols2) (ht : t = t2) (hs : s = s2) :
    analyze cols t s = analyze cols2 t2 s2 ∧
    (∀ b : String, meanPnlB (mergedRows t s) b = meanPnlB (mergedRows t2 s2) b) ∧
    (∀ b : String, winRateB (mergedRows t s) b = winRateB (mergedRows t2 s2) b) := by
  subst hc ht hs
  exact ⟨rfl, fun b => rfl, fun b => rfl⟩

/-- Claim C9 witness: two runs on the same concrete input. -/
theorem c9_deterministic_aggregates_witness :
    analyze ["value"] ([⟨0, .num 5, .nan⟩] : List TRow) ([⟨0, .num 30⟩] : List SRow) =
      analyze ["value"] ([⟨0, .num 5, .nan⟩] : List TRow) ([⟨0, .num 30⟩] : List SRow) ∧
    (∀ b : String,
      meanPnlB (mergedRows ([⟨0, .num 5, .nan⟩] : List TRow)
          ([⟨0, .num 30⟩] : List SRow)) b =
        meanPnlB (mergedRows ([⟨0, .num 5, .nan⟩] : List TRow)
          ([⟨0, .num 30⟩] : List SRow)) b) ∧
    (∀ b : String,
      winRateB (mergedRows ([⟨0, .num 5, .nan⟩] : List TRow)
          ([⟨0, .num 30⟩] : List SRow)) b =
        winRateB (mergedRows ([⟨0, .num 5, .nan⟩] : List TRow)
          ([⟨0, .num 30⟩] : List SRow)) b) :=
  c9_deterministic_aggregates _ _ _ _ _ _ rfl rfl rfl

/-- Claim C10: a merged row whose cleaned profit/loss is missing is not a
win, yet it still lands in its bucket's win-rate denominator — appending
such a row grows the bucket group by one and strictly lowers any positive
win rate instead of being excluded. -/
theorem c10_missing_pnl_lowers_win_rate (rows : List MRow) (r : MRow) (b : String)
    (hpnl : cleanCellPnl r.pnl = none) (hb : bucketOf r = b) :
    isWin r = false ∧
    (groupRows (rows ++ [r]) b).length = (groupRows rows b).length + 1 ∧
    ∀ w : ℚ, winRateB rows b = some w → 0 < w →
      ∃ w2 : ℚ, winRateB (rows ++ [r]) b = some w2 ∧ w2 < w := by
  have hwin : isWin r = false := by simp [isWin, hpnl]
  have hApp : groupRows (rows ++ [r]) b = groupRows rows b ++ [r] := by
    simp [groupRows, List.filter_append, hb]
  refine ⟨hwin, by simp [hApp], ?_⟩
  intro w hw hwpos
  simp only [winRateB] at hw
  cases hgE : (groupRows rows b).isEmpty with
  | true =>
    rw [hgE] at hw
    simp at hw
  | false =>
    rw [hgE] at hw
    simp only [Bool.false_eq_true, if_false, Option.some.injEq] at hw
    have hlen : 0 < (groupRows rows b).length := by
      cases hg : groupRows rows b with
      | nil => rw [hg] at hgE; simp at hgE
      | cons a l => simp
    have hkpos : 0 < ((groupRows rows b).countP fun x => isWin x) := by
      by_contra hk0
      have hk : ((groupRows rows b).countP fun x => isWin x) = 0 :=
        Nat.le_zero.mp (Nat.not_lt.mp hk0)
      rw [hk] at hw
      rw [← hw] at hwpos
      simp at hwpos
    refine ⟨(((groupRows rows b).countP fun x => isWin x : ℕ) : ℚ) /
      (((groupRows rows b).length : ℚ) + 1), ?_, ?_⟩
    · simp only [winRateB, hApp]
      have hne2 : (groupRows rows b ++ [r]).isEmpty = false := by
        simp
      rw [hne2]
      simp only [Bool.false_eq_true, if_false, Option.some.injEq]
      rw [List.countP_append, List.length_append]
      simp [hwin]
    · rw [← hw]
      rw [div_lt_div_iff₀ (by positivity) (by exact_mod_cast hlen)]
      have hkq : (0 : ℚ) < (((groupRows rows b).countP fun x => isWin x : ℕ) : ℚ) := by
        exact_mod_cast hkpos
      nlinarith [hkq, (show (0:ℚ) < ((groupRows rows b).length : ℚ) by exact_mod_cast hlen)]

/-- Claim C10 witness: one winning Fear-bucket row plus one Fear-bucket
row with missing PnL — the bucket's win rate drops below its previous
value 1. -/
theorem c10_missing_pnl_lowers_win_rate_witness :
    isWin ⟨0, .nan, .nan, .num 30⟩ = false ∧
    (groupRows (([⟨0, .num 5, .nan, .num 30⟩] : List MRow) ++
        [⟨0, .nan, .nan, .num 30⟩]) "Fear").length =
      (groupRows ([⟨0, .num 5, .nan, .num 30⟩] : List MRow) "Fear").length + 1 ∧
    ∃ w2 : ℚ, winRateB (([⟨0, .num 5, .nan, .num 30⟩] : List MRow) ++
        [⟨0, .nan, .nan, .num 30⟩]) "Fear" = some w2 ∧ w2 < 1 := by
  have h := c10_missing_pnl_lowers_win_rate
    ([⟨0, .num 5, .nan, .num 30⟩] : List MRow) ⟨0, .nan, .nan, .num 30⟩ "Fear"
    rfl (by decide)
  refine ⟨h.1, h.2.1, h.2.2 1 ?_ (by norm_num)⟩
  simp +decide [winRateB, groupRows, bucketOf, get_bucket, floatOf, fltLtBool,
    isWin, cleanCellPnl]

end TraderInsights
